import Mathlib

/-!
# Verification of the position-api ship-data cache orchestration

A shallow embedding, in Lean 4, of the `/api/ship` endpoint of `src/main.py`
(FastAPI service) together with its cache helpers `get_latest_cache_file`
and `save_to_cache`, and proofs about the embedded definitions.

Modelling conventions:
* Python strings are Lean `String`s; the Python methods `str.replace`,
  `str.strip`, `str.startswith`, `str.endswith` are embedded as executable
  functions on character lists (`pyReplace`, `pyStrip`, ...).
* `datetime` instants are modelled as seconds since 0001-01-01T00:00:00 UTC
  (`Nat`), matching Python's proleptic-Gregorian `toordinal` calendar.
  `datetime.strptime(s, "%Y-%m-%d_%H-%M-%S")` is embedded by `parseTs`
  following CPython's `_strptime` regular expressions (each two-digit field
  also accepts a single digit, `%Y` is exactly four digits, the whole string
  must be consumed, and the resulting calendar date must be valid);
  `strftime("%Y-%m-%d_%H-%M-%S")` is embedded by `fmtTs`.
* The Google Cloud Storage client and the upstream HTTP client are external
  collaborators; their outcomes are inputs of the model (`Env`), and the
  calls the endpoint makes to them are recorded in an effect trace.
* Python exception flow is embedded explicitly: the endpoint body returns
  `Except PyExc _`, and the `except` clauses of `get_singapore_ship_data`
  are the function `handleShipExc`.  Note that FastAPI's `HTTPException`
  is a subclass of `Exception`, so an `HTTPException` raised inside the
  `try:` block is caught by the final `except Exception` clause.
-/

/-- `SINGAPORE_CACHE_FOLDER` from `src/main.py` line 25. -/
def SINGAPORE_CACHE_FOLDER : String := "singapore-cache/"

/-- `CACHE_EXPIRY_MINUTES` from `src/main.py` line 30. -/
def CACHE_EXPIRY_MINUTES : Nat := 10

/-! ## Python string primitives -/

/-- One replacement scan step with explicit fuel (the fuel starts at the
length of the list, and every step consumes at least one character, so the
fuel never runs out).  Replaces leftmost, non-overlapping occurrences of
`pat` by `rep`, like Python `str.replace` with a non-empty pattern. -/
def replChars (pat rep : List Char) : Nat → List Char → List Char
  | _, [] => []
  | 0, l => l
  | Nat.succ fuel, c :: cs =>
    if pat.isPrefixOf (c :: cs) then
      rep ++ replChars pat rep fuel (List.drop (pat.length - 1) cs)
    else
      c :: replChars pat rep fuel cs

/-- Embedding of Python `s.replace(pat, rep)` (all occurrences, left to
right, non-overlapping; with an empty pattern the call sites in `main.py`
never occur, and we return `s` unchanged). -/
def pyReplace (s pat rep : String) : String :=
  if pat.toList = [] then s
  else String.mk (replChars pat.toList rep.toList s.toList.length s.toList)

/-- The whitespace characters stripped by Python `str.strip()` (ASCII part;
blob names and API keys in this service are ASCII). -/
def pyIsSpace (c : Char) : Bool :=
  c == ' ' || c == '\t' || c == '\n' || c == '\r' || c == '\x0b' || c == '\x0c'

/-- Embedding of Python `s.strip()`. -/
def pyStrip (s : String) : String :=
  String.mk (((s.toList.dropWhile pyIsSpace).reverse.dropWhile pyIsSpace).reverse)

/-- Embedding of Python `s.startswith(p)`. -/
def pyStartsWith (s p : String) : Bool :=
  p.toList.isPrefixOf s.toList

/-- Embedding of Python `s.endswith(p)`. -/
def pyEndsWith (s p : String) : Bool :=
  p.toList.isSuffixOf s.toList

/-! ## Calendar arithmetic (proleptic Gregorian, as in Python `datetime`) -/

/-- Python `calendar`-style leap-year test. -/
def isLeap (y : Nat) : Bool :=
  (y % 4 == 0 && y % 100 != 0) || y % 400 == 0

/-- Month lengths, January first. -/
def monthDays (leap : Bool) : List Nat :=
  [31, if leap then 29 else 28, 31, 30, 31, 30, 31, 31, 30, 31, 30, 31]

/-- Number of days in month `m` (1-based) of year `y`. -/
def daysInMonth (y m : Nat) : Nat :=
  (monthDays (isLeap y)).getD (m - 1) 31

/-- Days in all years before year `y` (proleptic Gregorian, year 1 first). -/
def daysBeforeYear (y : Nat) : Nat :=
  let n := y - 1
  365 * n + n / 4 - n / 100 + n / 400

/-- Days in the months of year `y` before month `m` (1-based). -/
def daysBeforeMonth (y m : Nat) : Nat :=
  ((monthDays (isLeap y)).take (m - 1)).foldl (fun a b => a + b) 0

/-- Python `date(y, m, d).toordinal()`: 0001-01-01 is day 1. -/
def toOrdinal (y m d : Nat) : Nat :=
  daysBeforeYear y + daysBeforeMonth y m + d

/-- Seconds since 0001-01-01T00:00:00 UTC of the instant `y-m-d h:mi:s`. -/
def tsOf (y m d h mi s : Nat) : Nat :=
  (toOrdinal y m d - 1) * 86400 + h * 3600 + mi * 60 + s

/-- Numeric value of a digit run. -/
def digitsVal (l : List Char) : Nat :=
  l.foldl (fun a c => a * 10 + (c.toNat - 48)) 0

/-- Embedding of
`datetime.strptime(s, "%Y-%m-%d_%H-%M-%S").replace(tzinfo=timezone.utc)`
(`src/main.py` line 87), including the `ValueError` cases the caller turns
into a skip: per CPython `_strptime`, `%Y` is exactly four digits, and the
other fields are one or two digits within range (leading zeros optional);
the whole string must be consumed; `datetime` then requires a positive year,
a day that exists in the month, and seconds below 60. -/
def parseTs (s : String) : Option Nat :=
  match s.toList.span Char.isDigit with
  | (ys, '-' :: r1) =>
    match r1.span Char.isDigit with
    | (ms, '-' :: r2) =>
      match r2.span Char.isDigit with
      | (ds, '_' :: r3) =>
        match r3.span Char.isDigit with
        | (hs, '-' :: r4) =>
          match r4.span Char.isDigit with
          | (mis, '-' :: r5) =>
            match r5.span Char.isDigit with
            | (ss, []) =>
              let y := digitsVal ys
              let mo := digitsVal ms
              let d := digitsVal ds
              let h := digitsVal hs
              let mi := digitsVal mis
              let sec := digitsVal ss
              if ys.length = 4 ∧ 1 ≤ y ∧
                  (ms.length = 1 ∨ ms.length = 2) ∧ 1 ≤ mo ∧ mo ≤ 12 ∧
                  (ds.length = 1 ∨ ds.length = 2) ∧ 1 ≤ d ∧ d ≤ daysInMonth y mo ∧
                  (hs.length = 1 ∨ hs.length = 2) ∧ h ≤ 23 ∧
                  (mis.length = 1 ∨ mis.length = 2) ∧ mi ≤ 59 ∧
                  (ss.length = 1 ∨ ss.length = 2) ∧ sec ≤ 59 then
                some (tsOf y mo d h mi sec)
              else
                none
            | _ => none
          | _ => none
        | _ => none
      | _ => none
    | _ => none
  | _ => none

/-- Zero-pad to two digits. -/
def pad2 (n : Nat) : String :=
  if n < 10 then "0" ++ toString n else toString n

/-- Zero-pad to four digits. -/
def pad4 (n : Nat) : String :=
  if n < 10 then "000" ++ toString n
  else if n < 100 then "00" ++ toString n
  else if n < 1000 then "0" ++ toString n
  else toString n

/-- Civil date of a day count (`q` days since 0001-01-01), via the standard
era decomposition of the proleptic Gregorian calendar. -/
def civilOfDays (q : Nat) : Nat × Nat × Nat :=
  let z := q + 306
  let era := z / 146097
  let doe := z % 146097
  let yoe := (doe - doe / 1460 + doe / 36524 - doe / 146096) / 365
  let y := yoe + era * 400
  let doy := doe - (365 * yoe + yoe / 4 - yoe / 100)
  let mp := (5 * doy + 2) / 153
  let d := doy - (153 * mp + 2) / 5 + 1
  let m := if mp < 10 then mp + 3 else mp - 9
  (if m ≤ 2 then y + 1 else y, m, d)

/-- Embedding of
`datetime.now(timezone.utc).strftime("%Y-%m-%d_%H-%M-%S")`
(`src/main.py` line 117) applied to the instant `t` (seconds since
0001-01-01T00:00:00 UTC). -/
def fmtTs (t : Nat) : String :=
  let q := t / 86400
  let r := t % 86400
  let ymd := civilOfDays q
  pad4 ymd.1 ++ "-" ++ pad2 ymd.2.1 ++ "-" ++ pad2 ymd.2.2 ++ "_" ++
    pad2 (r / 3600) ++ "-" ++ pad2 (r % 3600 / 60) ++ "-" ++ pad2 (r % 60)

/-! ## Cache index (`get_latest_cache_file`, `src/main.py` lines 67-105) -/

/-- The remainder of a blob name after
`blob.name.replace(SINGAPORE_CACHE_FOLDER, '').replace('.json', '')`
(`src/main.py` line 86).  Note both `replace` calls remove every
occurrence, not only a leading or trailing one. -/
def stripName (name : String) : String :=
  pyReplace (pyReplace name SINGAPORE_CACHE_FOLDER "") ".json" ""

/-- The timestamp the cache scan associates to a blob name: only names
ending in `.json` are considered, and the stripped remainder must parse
(`src/main.py` lines 84-87). -/
def extractTs (name : String) : Option Nat :=
  if pyEndsWith name ".json" then parseTs (stripName name) else none

/-- The freshness test
`current_time - file_timestamp <= timedelta(minutes=CACHE_EXPIRY_MINUTES)`
(`src/main.py` line 91), over integers so that a timestamp later than
`now` gives a negative age. -/
def isFresh (now ts : Nat) : Bool :=
  decide ((now : Int) - (ts : Int) ≤ (CACHE_EXPIRY_MINUTES : Int) * 60)

/-- The `valid_blobs` list built by the scan loop (`src/main.py` lines
79-95): blob names under the folder (the `list_blobs(prefix=...)` listing
is server-side filtering), each paired with its parsed timestamp, kept
when fresh. -/
def validBlobs (names : List String) (now : Nat) : List (String × Nat) :=
  (names.filter (fun n => pyStartsWith n SINGAPORE_CACHE_FOLDER)).filterMap
    (fun n =>
      match extractTs n with
      | some ts => if isFresh now ts then some (n, ts) else none
      | none => none)

/-- `max(valid_blobs, key=lambda x: x[1])` on a non-empty list: Python's
`max` keeps the first of several maximal elements. -/
def maxByTs : List (String × Nat) → Option (String × Nat)
  | [] => none
  | x :: xs => some (xs.foldl (fun a y => if a.2 < y.2 then y else a) x)

/-- Embedding of `get_latest_cache_file` (`src/main.py` lines 67-105).
The store listing outcome is the argument `scan` (an exception text on
failure), `now` is the clock reading at line 80; the result is the chosen
blob name with its parsed timestamp, or `none`.  Any store error is caught
and turned into `none` (lines 103-105). -/
def get_latest_cache_file (scan : Except String (List String)) (now : Nat) :
    Option (String × Nat) :=
  match scan with
  | .error _ => none
  | .ok names => maxByTs (validBlobs names now)

/-! ## `save_to_cache` (`src/main.py` lines 108-127) -/

/-- The cache file name built at `src/main.py` lines 117-118 for a write
at instant `t`. -/
def cacheFileName (t : Nat) : String :=
  SINGAPORE_CACHE_FOLDER ++ fmtTs t ++ ".json"

/-- Embedding of `save_to_cache` (`src/main.py` lines 108-127): one upload
is attempted under the timestamp-named key; every exception is caught and
logged, returning `None` (`.none` here) instead of propagating. -/
def save_to_cache (upload : Except String Unit) (t : Nat) : Option String :=
  match upload with
  | .ok _ => some (cacheFileName t)
  | .error _ => none

/-! ## Data model (`src/main.py` lines 37-61 and 295-322) -/

/-- `VesselParticulars` (`src/main.py` lines 37-50), numeric fields as
rationals. -/
structure VesselParticulars where
  vesselName : String
  callSign : String
  imoNumber : String
  flag : String
  vesselLength : Rat
  vesselBreadth : Rat
  vesselDepth : Rat
  vesselType : String
  grossTonnage : Rat
  netTonnage : Rat
  deadweight : Rat
  mmsiNumber : String
  yearBuilt : String
deriving DecidableEq, Repr

/-- `SingaporeApiResponse` (`src/main.py` lines 52-61). -/
structure SingaporeApiResponse where
  vesselParticulars : VesselParticulars
  latitude : Rat
  longitude : Rat
  latitudeDegrees : Rat
  longitudeDegrees : Rat
  speed : Rat
  course : Rat
  heading : Rat
  timeStamp : String
deriving DecidableEq, Repr

/-- One loosely-typed vessel object of the upstream JSON array: every
field may be absent (`ship.get(...)` in `src/main.py` lines 296-321). -/
structure RawShip where
  vesselName : Option String := none
  callSign : Option String := none
  imoNumber : Option String := none
  flag : Option String := none
  vesselLength : Option Rat := none
  vesselBreadth : Option Rat := none
  vesselDepth : Option Rat := none
  vesselType : Option String := none
  grossTonnage : Option Rat := none
  netTonnage : Option Rat := none
  deadweight : Option Rat := none
  mmsiNumber : Option String := none
  yearBuilt : Option String := none
  latitude : Option Rat := none
  longitude : Option Rat := none
  latitudeDegrees : Option Rat := none
  longitudeDegrees : Option Rat := none
  speed : Option Rat := none
  course : Option Rat := none
  heading : Option Rat := none
  timeStamp : Option String := none
deriving DecidableEq, Repr

/-- The per-ship transformation of `src/main.py` lines 297-321:
`ship.get(k, default)` is `Option.getD`; `latitudeDegrees` and
`longitudeDegrees` fall back to `latitude` / `longitude` before falling
back to `0` (lines 315-316). -/
def transformShip (ship : RawShip) : SingaporeApiResponse where
  vesselParticulars :=
    { vesselName := ship.vesselName.getD ""
      callSign := ship.callSign.getD ""
      imoNumber := ship.imoNumber.getD ""
      flag := ship.flag.getD ""
      vesselLength := ship.vesselLength.getD 0
      vesselBreadth := ship.vesselBreadth.getD 0
      vesselDepth := ship.vesselDepth.getD 0
      vesselType := ship.vesselType.getD ""
      grossTonnage := ship.grossTonnage.getD 0
      netTonnage := ship.netTonnage.getD 0
      deadweight := ship.deadweight.getD 0
      mmsiNumber := ship.mmsiNumber.getD ""
      yearBuilt := ship.yearBuilt.getD "" }
  latitude := ship.latitude.getD 0
  longitude := ship.longitude.getD 0
  latitudeDegrees := ship.latitudeDegrees.getD (ship.latitude.getD 0)
  longitudeDegrees := ship.longitudeDegrees.getD (ship.longitude.getD 0)
  speed := ship.speed.getD 0
  course := ship.course.getD 0
  heading := ship.heading.getD 0
  timeStamp := ship.timeStamp.getD ""

/-! ## The `/api/ship` endpoint (`src/main.py` lines 245-338) -/

/-- Calls the endpoint makes to its collaborators, in order. -/
inductive Effect where
  | storeList
  | storeDownload (name : String)
  | netCall
  | storeWrite (name : String)
deriving DecidableEq, Repr

/-- Python exceptions that can escape the `try:` body of the endpoint. -/
inductive PyExc where
  | httpException (status : Nat) (detail : String)
  | requestError (msg : String)
  | statusError (status : Nat)
  | otherError (msg : String)
deriving DecidableEq, Repr

/-- Python `str(e)`; Starlette's `HTTPException.__str__` is
`f"{self.status_code}: {self.detail}"`. -/
def strOfExc : PyExc → String
  | .httpException st d => toString st ++ ": " ++ d
  | .requestError m => m
  | .statusError st => "status " ++ toString st
  | .otherError m => m

/-- Errors surfaced to the HTTP caller. -/
structure HTTPErr where
  status : Nat
  detail : String
deriving DecidableEq, Repr

/-- The `except` clauses of `get_singapore_ship_data` (`src/main.py` lines
330-338), tried in order: `httpx.RequestError` gives 502, the (dead)
`httpx.HTTPStatusError` clause gives 502, and everything else — including
a FastAPI `HTTPException`, which is a subclass of `Exception` — is
re-raised as a 500 whose detail is `str(e)`. -/
def handleShipExc : PyExc → HTTPErr
  | .requestError m => ⟨502, "Network error: " ++ m⟩
  | .statusError st => ⟨502, "API error: " ++ toString st⟩
  | e => ⟨500, strOfExc e⟩

/-- `httpx.Response.is_success`: status in [200, 300). -/
def isSuccessStatus (status : Nat) : Bool :=
  decide (200 ≤ status ∧ status < 300)

/-- Outcome of `client.get(SINGAPORE_API_URL, ...)` (`src/main.py` lines
276-291): either a transport failure (`httpx.RequestError`), or a response
with a status code and a body whose `response.json()` parse may itself
fail. -/
inductive UpstreamResult where
  | netError (msg : String)
  | response (status : Nat) (body : Except String (List RawShip))

/-- The external world of one request: the outcomes of the store listing,
of each blob download (text download plus `json.loads`, which both raise
into the same handler), of the upstream call, and of the cache upload;
`tList` is the clock at the cache scan (`src/main.py` line 80) and
`tList + saveDelay` the clock at the cache write (line 117) — the clock is
monotone, so the write time is reached by a non-negative delay. -/
structure Env where
  scan : Except String (List String)
  download : String → Except String (List SingaporeApiResponse)
  upstream : UpstreamResult
  upload : Except String Unit
  tList : Nat
  saveDelay : Nat

/-- The `try:` body of `get_singapore_ship_data` (`src/main.py` lines
254-328), with the effect trace of collaborator calls: validate the key,
scan the cache, serve a fresh entry if any, otherwise call the upstream
API, transform, and attempt one best-effort cache write (whose failure
`save_to_cache` absorbs). -/
def shipBody (key : String) (env : Env) :
    Except PyExc (List SingaporeApiResponse) × List Effect :=
  if key == "" || pyStrip key == "" then
    (.error (.httpException 400 "API key is required"), [])
  else
    match get_latest_cache_file env.scan env.tList with
    | some (name, _ts) =>
      match env.download name with
      | .ok payload => (.ok payload, [.storeList, .storeDownload name])
      | .error m => (.error (.otherError m), [.storeList, .storeDownload name])
    | none =>
      match env.upstream with
      | .netError m => (.error (.requestError m), [.storeList, .netCall])
      | .response status body =>
        if !isSuccessStatus status then
          (.error (.httpException 502
              ("Failed to fetch data from Singapore API: " ++ toString status)),
            [.storeList, .netCall])
        else
          match body with
          | .error m => (.error (.otherError m), [.storeList, .netCall])
          | .ok ships =>
            let transformed := ships.map transformShip
            let _saved := save_to_cache env.upload (env.tList + env.saveDelay)
            (.ok transformed,
              [.storeList, .netCall,
                .storeWrite (cacheFileName (env.tList + env.saveDelay))])

/-- Embedding of the endpoint `get_singapore_ship_data` (`src/main.py`
lines 245-338): the `try:` body, with escaping exceptions mapped by the
`except` clauses. -/
def get_singapore_ship_data (key : String) (env : Env) :
    Except HTTPErr (List SingaporeApiResponse) × List Effect :=
  match shipBody key env with
  | (.ok p, tr) => (.ok p, tr)
  | (.error e, tr) => (.error (handleShipExc e), tr)

/-- The write effects of a trace (used to count attempted cache writes). -/
def writeKeys (tr : List Effect) : List String :=
  tr.filterMap (fun e => match e with | .storeWrite f => some f | _ => none)

/-! ## Spec-side definition for the key-format refinement -/

/-- Spec-side refinement definition, following the spec's words
(spec.md §3, §4.1): a timestamp string in *exactly* the format
`YYYY-MM-DD_HH-MM-SS` — four-digit year, two-digit zero-padded month, day,
hour, minute and second, in valid calendar ranges.  To be compared with
the lenient `parseTs` the source's `strptime` call implements. -/
def specExactTimestamp (s : String) : Bool :=
  match s.toList with
  | [y1, y2, y3, y4, '-', m1, m2, '-', d1, d2, '_',
      h1, h2, '-', mi1, mi2, '-', s1, s2] =>
    ([y1, y2, y3, y4, m1, m2, d1, d2, h1, h2, mi1, mi2, s1, s2].all
        Char.isDigit) &&
    (let y := digitsVal [y1, y2, y3, y4]
     let mo := digitsVal [m1, m2]
     let d := digitsVal [d1, d2]
     decide (1 ≤ y ∧ 1 ≤ mo ∧ mo ≤ 12 ∧ 1 ≤ d ∧ d ≤ daysInMonth y mo ∧
       digitsVal [h1, h2] ≤ 23 ∧ digitsVal [mi1, mi2] ≤ 59 ∧
       digitsVal [s1, s2] ≤ 59))
  | _ => false

/-! ## Helper lemmas -/

/-- The fold inside `maxByTs` returns its accumulator or a list element. -/
theorem foldlMax_choice (xs : List (String × Nat)) :
    ∀ x : String × Nat,
      xs.foldl (fun a y => if a.2 < y.2 then y else a) x = x ∨
      xs.foldl (fun a y => if a.2 < y.2 then y else a) x ∈ xs := by
  induction xs with
  | nil => intro x; exact Or.inl rfl
  | cons z zs ih =>
    intro x
    simp only [List.foldl_cons]
    rcases ih (if x.2 < z.2 then z else x) with h | h
    · rw [h]
      by_cases hlt : x.2 < z.2
      · simp [hlt]
      · simp [hlt]
    · exact Or.inr (List.mem_cons_of_mem _ h)

/-- The fold inside `maxByTs` dominates its accumulator and every list
element in timestamp. -/
theorem foldlMax_ge (xs : List (String × Nat)) :
    ∀ x : String × Nat,
      x.2 ≤ (xs.foldl (fun a y => if a.2 < y.2 then y else a) x).2 ∧
      ∀ y ∈ xs, y.2 ≤ (xs.foldl (fun a y => if a.2 < y.2 then y else a) x).2 := by
  induction xs with
  | nil =>
    intro x
    refine ⟨le_refl _, ?_⟩
    intro y hy
    cases hy
  | cons z zs ih =>
    intro x
    simp only [List.foldl_cons]
    obtain ⟨h1, h2⟩ := ih (if x.2 < z.2 then z else x)
    have hx : x.2 ≤ (if x.2 < z.2 then z else x).2 := by
      by_cases hlt : x.2 < z.2
      · simp only [if_pos hlt]
        exact Nat.le_of_lt hlt
      · simp only [if_neg hlt]
        exact Nat.le_refl _
    have hz : z.2 ≤ (if x.2 < z.2 then z else x).2 := by
      by_cases hlt : x.2 < z.2
      · simp only [if_pos hlt]
        exact Nat.le_refl _
      · simp only [if_neg hlt]
        exact Nat.le_of_not_lt hlt
    refine ⟨le_trans hx h1, ?_⟩
    intro y hy
    rcases List.mem_cons.mp hy with rfl | hy
    · exact le_trans hz h1
    · exact h2 y hy

/-- The handler step keeps the effect trace of the body unchanged. -/
theorem trace_eq_body (key : String) (env : Env) :
    (get_singapore_ship_data key env).2 = (shipBody key env).2 := by
  unfold get_singapore_ship_data
  rcases h : shipBody key env with ⟨r, tr⟩
  cases r <;> simp

/-! ## Claims -/

/-- Claim C4: for every set of object-store keys under the cache prefix,
`get_latest_cache_file` returns the entry with the maximum parsed
timestamp among the keys that parse under the `%Y-%m-%d_%H-%M-%S` format
and whose age (now minus timestamp) is at most the freshness window, and
returns `none` when no key qualifies. -/
theorem C4_findFreshest_max (names : List String) (now : Nat) :
    (get_latest_cache_file (.ok names) now = none ↔ validBlobs names now = []) ∧
    (∀ n t, get_latest_cache_file (.ok names) now = some (n, t) →
      (n, t) ∈ validBlobs names now ∧ ∀ y ∈ validBlobs names now, y.2 ≤ t) := by
  constructor
  · cases h : validBlobs names now with
    | nil => simp [get_latest_cache_file, maxByTs, h]
    | cons x xs => simp [get_latest_cache_file, maxByTs, h]
  · intro n t hsome
    cases h : validBlobs names now with
    | nil => simp [get_latest_cache_file, maxByTs, h] at hsome
    | cons x xs =>
      simp only [get_latest_cache_file, h, maxByTs, Option.some.injEq] at hsome
      constructor
      · rw [← hsome]
        rcases foldlMax_choice xs x with hc | hc
        · rw [hc]; exact List.mem_cons_self x xs
        · exact List.mem_cons_of_mem x hc
      · intro y hy
        obtain ⟨h1, h2⟩ := foldlMax_ge xs x
        have ht : (List.foldl (fun a y => if a.2 < y.2 then y else a) x xs).2 = t := by
          rw [hsome]
        rw [← ht]
        rcases List.mem_cons.mp hy with rfl | hy
        · exact h1
        · exact h2 y hy

/-- Witness for C4 at the spec's own example inputs (spec.md §8): keys at
10:00:00 and 10:05:00 plus a malformed key, now = 10:06:00: the 10:05:00
entry is chosen, belongs to the valid set, and is maximal in it. -/
theorem C4_findFreshest_max_witness :
    get_latest_cache_file
        (.ok ["singapore-cache/2024-01-01_10-00-00.json",
          "singapore-cache/2024-01-01_10-05-00.json", "bad-key.json"])
        63839700360 =
      some ("singapore-cache/2024-01-01_10-05-00.json", 63839700300) ∧
    (("singapore-cache/2024-01-01_10-05-00.json", 63839700300) ∈
        validBlobs ["singapore-cache/2024-01-01_10-00-00.json",
          "singapore-cache/2024-01-01_10-05-00.json", "bad-key.json"] 63839700360 ∧
      ∀ y ∈ validBlobs ["singapore-cache/2024-01-01_10-00-00.json",
          "singapore-cache/2024-01-01_10-05-00.json", "bad-key.json"] 63839700360,
        y.2 ≤ 63839700300) :=
  ⟨by decide,
    (C4_findFreshest_max
        ["singapore-cache/2024-01-01_10-00-00.json",
          "singapore-cache/2024-01-01_10-05-00.json", "bad-key.json"]
        63839700360).2
      "singapore-cache/2024-01-01_10-05-00.json" 63839700300 (by decide)⟩

/-- Claim C8 counterexample: the key
`singapore-cache/2024-1-1_0-0-0.json` has a remainder that is *not* in
exactly the format `YYYY-MM-DD_HH-MM-SS` (fields are not zero-padded),
yet the scan does not exclude it: `strptime` also accepts non-zero-padded
fields, so the entry is selected as the freshest one. -/
theorem C8_counterexample :
    specExactTimestamp (stripName "singapore-cache/2024-1-1_0-0-0.json") = false ∧
    get_latest_cache_file (.ok ["singapore-cache/2024-1-1_0-0-0.json"])
        63839664000 =
      some ("singapore-cache/2024-1-1_0-0-0.json", 63839664000) :=
  ⟨by decide, by decide⟩

/-- Claim C8 (amended): a key under the cache folder ending in `.json`
whose stripped remainder does not parse under the (lenient) strptime
format `%Y-%m-%d_%H-%M-%S` is silently excluded from freshness
consideration: the scan result is as if the key were absent, and no error
is raised (the scan is a total function). -/
theorem C8_unparseable_keys_skipped (pre post : List String) (n : String)
    (now : Nat)
    (h1 : pyStartsWith n SINGAPORE_CACHE_FOLDER = true)
    (h2 : pyEndsWith n ".json" = true)
    (h3 : parseTs (stripName n) = none) :
    get_latest_cache_file (.ok (pre ++ n :: post)) now =
      get_latest_cache_file (.ok (pre ++ post)) now := by
  have hext : extractTs n = none := by
    simp [extractTs, h2, h3]
  have hvb : validBlobs (pre ++ n :: post) now = validBlobs (pre ++ post) now := by
    simp [validBlobs, List.filter_append, List.filter_cons, h1,
      List.filterMap_append, List.filterMap_cons, hext]
  simp [get_latest_cache_file, hvb]

/-- Witness for the amended C8: dropping the malformed key
`singapore-cache/not-a-timestamp.json` from a concrete listing leaves the
scan result unchanged. -/
theorem C8_unparseable_keys_skipped_witness :
    pyStartsWith "singapore-cache/not-a-timestamp.json" SINGAPORE_CACHE_FOLDER = true ∧
    pyEndsWith "singapore-cache/not-a-timestamp.json" ".json" = true ∧
    parseTs (stripName "singapore-cache/not-a-timestamp.json") = none ∧
    get_latest_cache_file
        (.ok (["singapore-cache/2024-01-01_10-00-00.json"] ++
          "singapore-cache/not-a-timestamp.json" :: [])) 63839700000 =
      get_latest_cache_file (.ok (["singapore-cache/2024-01-01_10-00-00.json"] ++ []))
        63839700000 :=
  ⟨by decide, by decide, by decide,
    C8_unparseable_keys_skipped ["singapore-cache/2024-01-01_10-00-00.json"] []
      "singapore-cache/not-a-timestamp.json" 63839700000
      (by decide) (by decide) (by decide)⟩

/-- Claim C9: an object-store failure during the cache scan is caught and
turned into "no entry", and the lookup then proceeds to the upstream
fetch (the network call appears in the trace) instead of failing. -/
theorem C9_scan_error_never_blocks (msg : String) (now : Nat) (key : String)
    (env : Env)
    (hscan : env.scan = .error msg)
    (hkey : (key == "" || pyStrip key == "") = false) :
    get_latest_cache_file (.error msg) now = none ∧
    Effect.netCall ∈ (get_singapore_ship_data key env).2 := by
  refine ⟨rfl, ?_⟩
  have hmiss : get_latest_cache_file env.scan env.tList = none := by
    rw [hscan]
    rfl
  rw [trace_eq_body]
  unfold shipBody
  rw [hkey, hmiss]
  simp only [Bool.false_eq_true, if_false]
  rcases env.upstream with m | ⟨st, body⟩
  · simp
  · by_cases hst : isSuccessStatus st
    · rcases body with m | ships <;> simp [hst]
    · simp [hst]

/-- Witness for C9: a concrete environment whose store listing fails with
a permission error still reaches the upstream call. -/
theorem C9_scan_error_never_blocks_witness :
    get_latest_cache_file (.error "permission denied") 0 = none ∧
    Effect.netCall ∈
      (get_singapore_ship_data "valid-key"
        { scan := .error "permission denied", download := fun _ => .error "unused",
          upstream := .netError "refused", upload := .ok (), tList := 0,
          saveDelay := 0 }).2 :=
  C9_scan_error_never_blocks "permission denied" 0 "valid-key"
    { scan := .error "permission denied", download := fun _ => .error "unused",
      upstream := .netError "refused", upload := .ok (), tList := 0,
      saveDelay := 0 }
    rfl (by decide)

/-- Claim C10: a cache key whose parsed timestamp lies strictly in the
future has negative age, hence always passes the freshness test
`now - ts <= window`, and can be selected as the freshest entry, however
far in the future its timestamp is. -/
theorem C10_future_keys_are_fresh (name : String) (ts now : Nat)
    (h1 : pyStartsWith name SINGAPORE_CACHE_FOLDER = true)
    (h2 : extractTs name = some ts)
    (h3 : now < ts) :
    isFresh now ts = true ∧
    get_latest_cache_file (.ok [name]) now = some (name, ts) := by
  have hf : isFresh now ts = true := by
    simp only [isFresh, CACHE_EXPIRY_MINUTES, decide_eq_true_eq]
    omega
  refine ⟨hf, ?_⟩
  simp [get_latest_cache_file, validBlobs, List.filter_cons, h1,
    List.filterMap_cons, h2, hf, maxByTs]

/-- Witness for C10: with now at the epoch, the key timestamped
9999-12-31T23:59:59 (about eight millennia in the future) is selected. -/
theorem C10_future_keys_are_fresh_witness :
    isFresh 0 315537897599 = true ∧
    get_latest_cache_file (.ok ["singapore-cache/9999-12-31_23-59-59.json"]) 0 =
      some ("singapore-cache/9999-12-31_23-59-59.json", 315537897599) :=
  C10_future_keys_are_fresh "singapore-cache/9999-12-31_23-59-59.json"
    315537897599 0 (by decide) (by decide) (by decide)

/-- Claim C5: normalization maps missing numeric fields to 0 and missing
string fields to the empty string, except that a missing
`latitudeDegrees` (resp. `longitudeDegrees`) falls back to the object's
`latitude` (resp. `longitude`) value rather than to 0. -/
theorem C5_normalization_defaults (s : RawShip) (v : Rat) :
    (s.latitudeDegrees = none → s.latitude = some v →
      (transformShip s).latitudeDegrees = v) ∧
    (s.longitudeDegrees = none → s.longitude = some v →
      (transformShip s).longitudeDegrees = v) ∧
    (s.latitudeDegrees = none → s.latitude = none →
      (transformShip s).latitudeDegrees = 0) ∧
    (s.longitudeDegrees = none → s.longitude = none →
      (transformShip s).longitudeDegrees = 0) ∧
    (s.latitude = none → (transformShip s).latitude = 0) ∧
    (s.longitude = none → (transformShip s).longitude = 0) ∧
    (s.speed = none → (transformShip s).speed = 0) ∧
    (s.course = none → (transformShip s).course = 0) ∧
    (s.heading = none → (transformShip s).heading = 0) ∧
    (s.vesselLength = none →
      (transformShip s).vesselParticulars.vesselLength = 0) ∧
    (s.vesselBreadth = none →
      (transformShip s).vesselParticulars.vesselBreadth = 0) ∧
    (s.vesselDepth = none →
      (transformShip s).vesselParticulars.vesselDepth = 0) ∧
    (s.grossTonnage = none →
      (transformShip s).vesselParticulars.grossTonnage = 0) ∧
    (s.netTonnage = none →
      (transformShip s).vesselParticulars.netTonnage = 0) ∧
    (s.deadweight = none →
      (transformShip s).vesselParticulars.deadweight = 0) ∧
    (s.vesselName = none →
      (transformShip s).vesselParticulars.vesselName = "") ∧
    (s.callSign = none → (transformShip s).vesselParticulars.callSign = "") ∧
    (s.imoNumber = none → (transformShip s).vesselParticulars.imoNumber = "") ∧
    (s.flag = none → (transformShip s).vesselParticulars.flag = "") ∧
    (s.vesselType = none →
      (transformShip s).vesselParticulars.vesselType = "") ∧
    (s.mmsiNumber = none →
      (transformShip s).vesselParticulars.mmsiNumber = "") ∧
    (s.yearBuilt = none → (transformShip s).vesselParticulars.yearBuilt = "") ∧
    (s.timeStamp = none → (transformShip s).timeStamp = "") := by
  refine ⟨?_, ?_, ?_, ?_, ?_, ?_, ?_, ?_, ?_, ?_, ?_, ?_, ?_, ?_, ?_, ?_,
      ?_, ?_, ?_, ?_, ?_, ?_, ?_⟩ <;>
    intros <;> simp_all [transformShip]

/-- Witness for C5: the spec's own example (spec.md §8): a vessel missing
`latitudeDegrees` with `latitude = 1.5` normalizes to
`latitudeDegrees = 1.5`; a vessel missing both gets 0. -/
theorem C5_normalization_defaults_witness :
    (transformShip { latitude := some (3 / 2 : Rat) }).latitudeDegrees = 3 / 2 ∧
    (transformShip ({} : RawShip)).latitudeDegrees = 0 ∧
    (transformShip ({} : RawShip)).latitude = 0 :=
  ⟨(C5_normalization_defaults { latitude := some (3 / 2 : Rat) } (3 / 2)).1
      rfl rfl,
    (C5_normalization_defaults ({} : RawShip) 0).2.2.1 rfl rfl,
    (C5_normalization_defaults ({} : RawShip) 0).2.2.2.2.1 rfl⟩

/-- A stub environment with an empty cache and an upstream 503 response,
used to evaluate the endpoint at concrete failing inputs. -/
def stubEnvMiss : Env where
  scan := .ok []
  download := fun _ => .error "unused"
  upstream := .response 503 (.error "unused")
  upload := .ok ()
  tList := 0
  saveDelay := 0

/-- Claim C1, behavior of the code at the claimed input: with a valid key,
an empty cache and an upstream 503 response, the `HTTPException(502, ...)`
raised at `src/main.py` line 285 is caught by the blanket
`except Exception` at line 336 and re-raised as status 500 (its detail
keeps the text `502: ... 503`), so the caller sees 500, not the claimed
502-equivalent; no cache write is attempted. -/
theorem C1_upstream_failure_code_behavior :
    get_singapore_ship_data "valid-key" stubEnvMiss =
      (.error ⟨500, "502: Failed to fetch data from Singapore API: 503"⟩,
        [Effect.storeList, Effect.netCall]) ∧
    writeKeys (get_singapore_ship_data "valid-key" stubEnvMiss).2 = [] :=
  ⟨rfl, rfl⟩

/-- Claim C2, behavior of the code at the claimed inputs: an empty or
whitespace-only API key fails before any store or network call (the
effect trace is empty), but the `HTTPException(400, ...)` raised at
`src/main.py` line 257 is caught by the blanket `except Exception` at
line 336 and re-raised as status 500, so the caller sees 500, not the
claimed 400-equivalent. -/
theorem C2_blank_key_code_behavior :
    get_singapore_ship_data "" stubEnvMiss =
      (.error ⟨500, "400: API key is required"⟩, []) ∧
    get_singapore_ship_data " \t " stubEnvMiss =
      (.error ⟨500, "400: API key is required"⟩, []) :=
  ⟨rfl, rfl⟩

/-- A concrete environment holding one fresh cache entry whose download
fails. -/
def envFreshDownloadFail : Env where
  scan := .ok ["singapore-cache/2024-01-01_10-00-00.json"]
  download := fun _ => .error "download failed"
  upstream := .netError "unused"
  upload := .ok ()
  tList := 63839700000
  saveDelay := 0

/-- Claim C3 counterexample: a cache-layer failure is *not* always
absorbed.  With a fresh cache entry present whose download fails, the
failure propagates to the caller as a 500 error (and the lookup does not
fall back to the upstream fetch: the trace shows no network call), so a
store-read failure — not an upstream-fetch or validation failure —
reaches the caller. -/
theorem C3_counterexample :
    get_singapore_ship_data "valid-key" envFreshDownloadFail =
      (.error ⟨500, "download failed"⟩,
        [Effect.storeList,
          Effect.storeDownload "singapore-cache/2024-01-01_10-00-00.json"]) :=
  rfl

/-- Claim C3 (amended): an object-store failure during the cache *scan*
is absorbed and treated as "no cache available", but a failure while
downloading (or deserializing) a found fresh cache entry is not absorbed:
it propagates to the caller as a 500 error, without falling back to the
upstream fetch. -/
theorem C3_cache_failure_propagation (msg : String) (now : Nat) (key : String)
    (env : Env) (name : String) (ts : Nat) (m : String)
    (hkey : (key == "" || pyStrip key == "") = false)
    (hhit : get_latest_cache_file env.scan env.tList = some (name, ts))
    (hdl : env.download name = .error m) :
    get_latest_cache_file (.error msg) now = none ∧
    get_singapore_ship_data key env =
      (.error ⟨500, m⟩, [Effect.storeList, Effect.storeDownload name]) := by
  refine ⟨rfl, ?_⟩
  unfold get_singapore_ship_data shipBody
  rw [hkey, hhit]
  simp [hdl, handleShipExc, strOfExc]

/-- Witness for the amended C3 at the concrete environment
`envFreshDownloadFail`. -/
theorem C3_cache_failure_propagation_witness :
    get_latest_cache_file (.error "permission denied") 0 = none ∧
    get_singapore_ship_data "valid-key" envFreshDownloadFail =
      (.error ⟨500, "download failed"⟩,
        [Effect.storeList,
          Effect.storeDownload "singapore-cache/2024-01-01_10-00-00.json"]) :=
  C3_cache_failure_propagation "permission denied" 0 "valid-key"
    envFreshDownloadFail "singapore-cache/2024-01-01_10-00-00.json"
    63839700000 "download failed" (by decide) (by decide) rfl

/-- Claim C6: on every successful upstream fetch exactly one cache write
is attempted, under the key built from the (monotone) clock at write time
formatted by the embedded `strftime("%Y-%m-%d_%H-%M-%S")`; the write time
is at or after the lookup's start; and whatever the upload outcome — in
particular when it fails — the normalized payload is still returned
(`save_to_cache` absorbs the failure and returns `none`). -/
theorem C6_exactly_one_best_effort_write (key : String) (env : Env) (st : Nat)
    (ships : List RawShip)
    (hkey : (key == "" || pyStrip key == "") = false)
    (hmiss : get_latest_cache_file env.scan env.tList = none)
    (hup : env.upstream = .response st (.ok ships))
    (hst : isSuccessStatus st = true) :
    get_singapore_ship_data key env =
      (.ok (ships.map transformShip),
        [Effect.storeList, Effect.netCall,
          Effect.storeWrite (cacheFileName (env.tList + env.saveDelay))]) ∧
    writeKeys (get_singapore_ship_data key env).2 =
      [cacheFileName (env.tList + env.saveDelay)] ∧
    env.tList ≤ env.tList + env.saveDelay ∧
    (∀ m, save_to_cache (.error m) (env.tList + env.saveDelay) = none) := by
  have hmain : get_singapore_ship_data key env =
      (.ok (ships.map transformShip),
        [Effect.storeList, Effect.netCall,
          Effect.storeWrite (cacheFileName (env.tList + env.saveDelay))]) := by
    unfold get_singapore_ship_data shipBody
    rw [hkey, hmiss, hup]
    simp [hst]
  refine ⟨hmain, ?_, Nat.le_add_right _ _, fun m => rfl⟩
  rw [hmain]
  simp [writeKeys]

/-- Witness for C6: a concrete successful fetch with a failing upload at
clock 10:00:00 + 5s still returns the transformed payload and attempts
exactly the write `singapore-cache/2024-01-01_10-00-05.json`. -/
theorem C6_exactly_one_best_effort_write_witness :
    cacheFileName (63839700000 + 5) = "singapore-cache/2024-01-01_10-00-05.json" ∧
    (get_singapore_ship_data "valid-key"
        { scan := .ok [], download := fun _ => .error "unused",
          upstream := .response 200 (.ok [{ latitude := some (3 / 2 : Rat) }]),
          upload := .error "disk full", tList := 63839700000, saveDelay := 5 } =
      (.ok [transformShip { latitude := some (3 / 2 : Rat) }],
        [Effect.storeList, Effect.netCall,
          Effect.storeWrite (cacheFileName (63839700000 + 5))]) ∧
      writeKeys (get_singapore_ship_data "valid-key"
          { scan := .ok [], download := fun _ => .error "unused",
            upstream := .response 200 (.ok [{ latitude := some (3 / 2 : Rat) }]),
            upload := .error "disk full", tList := 63839700000,
            saveDelay := 5 }).2 =
        [cacheFileName (63839700000 + 5)] ∧
      (63839700000 : Nat) ≤ 63839700000 + 5 ∧
      (∀ m, save_to_cache (.error m) (63839700000 + 5) = none)) :=
  ⟨by decide,
    C6_exactly_one_best_effort_write "valid-key"
      { scan := .ok [], download := fun _ => .error "unused",
        upstream := .response 200 (.ok [{ latitude := some (3 / 2 : Rat) }]),
        upload := .error "disk full", tList := 63839700000, saveDelay := 5 }
      200 [{ latitude := some (3 / 2 : Rat) }]
      (by decide) (by decide) rfl (by decide)⟩

/-- Claim C7: when the scan yields a fresh cache entry and its download
succeeds, the endpoint returns the downloaded payload directly; the trace
is exactly the store listing plus that one download, so no network call
to the upstream API and no cache write happen. -/
theorem C7_fresh_hit_serves_cache (key : String) (env : Env) (name : String)
    (ts : Nat) (p : List SingaporeApiResponse)
    (hkey : (key == "" || pyStrip key == "") = false)
    (hhit : get_latest_cache_file env.scan env.tList = some (name, ts))
    (hdl : env.download name = .ok p) :
    get_singapore_ship_data key env =
      (.ok p, [Effect.storeList, Effect.storeDownload name]) ∧
    writeKeys (get_singapore_ship_data key env).2 = [] := by
  have hmain : get_singapore_ship_data key env =
      (.ok p, [Effect.storeList, Effect.storeDownload name]) := by
    unfold get_singapore_ship_data shipBody
    rw [hkey, hhit]
    simp [hdl]
  refine ⟨hmain, ?_⟩
  rw [hmain]
  simp [writeKeys]

/-- A concrete environment holding one fresh cache entry whose download
succeeds with an empty payload. -/
def envFreshHit : Env where
  scan := .ok ["singapore-cache/2024-01-01_10-00-00.json"]
  download := fun _ => .ok []
  upstream := .netError "unused"
  upload := .ok ()
  tList := 63839700000
  saveDelay := 0

/-- Witness for C7 at the concrete environment `envFreshHit`. -/
theorem C7_fresh_hit_serves_cache_witness :
    get_singapore_ship_data "valid-key" envFreshHit =
      (.ok [], [Effect.storeList,
        Effect.storeDownload "singapore-cache/2024-01-01_10-00-00.json"]) ∧
    writeKeys (get_singapore_ship_data "valid-key" envFreshHit).2 = [] :=
  C7_fresh_hit_serves_cache "valid-key" envFreshHit
    "singapore-cache/2024-01-01_10-00-00.json" 63839700000 []
    (by decide) (by decide) rfl

